import Mathlib

/-!
Verification development for the GGUF bridge (`gguf_bridge.cpp` /
`gguf_bridge.hpp`): a shallow embedding of the conversion-context
lifecycle, format detection, metadata extraction and the convert
dispatch protocol, together with theorems about the specification's
claims.

Conventions of the embedding:
* The filesystem is an explicit read-only oracle (`FileSystem`).
* C strings handed across the API boundary are modelled as nullable
  addresses (`Option Nat`) into an explicit string heap (`StrHeap`);
  `strdup` is a fresh allocation.  This makes deep-copy versus
  pointer-aliasing observable.
* Callbacks, backend calls and `system` invocations are modelled as an
  effect trace (`Effect`) plus a backend oracle (`Backend`) supplying
  the exit codes.
* Floats used for progress are embedded as exact rationals
  (0, 1/10, 2/10, 3/10, 1 for the literals 0.0f..1.0f).
* A C++ exception escaping a function is modelled by an explicit
  `thrown` result constructor.
-/

/-! ## Error codes (gguf_bridge.hpp, `gguf_error_code_t`) -/

def GGUF_SUCCESS : Int := 0

def GGUF_ERROR_INVALID_ARGS : Int := -1

def GGUF_ERROR_FILE_NOT_FOUND : Int := -2

def GGUF_ERROR_INVALID_FORMAT : Int := -3

def GGUF_ERROR_CONVERSION_FAILED : Int := -4

def GGUF_ERROR_OUT_OF_MEMORY : Int := -5

def GGUF_ERROR_CANCELLED : Int := -6

def GGUF_ERROR_UNSUPPORTED_ARCH : Int := -7

def GGUF_ERROR_INVALID_QUANTIZATION : Int := -8

def GGUF_ERROR_IO_ERROR : Int := -9

def GGUF_ERROR_UNKNOWN : Int := -99

/-! ## llama.cpp file types (`enum llama_ftype`, the members the bridge uses).
llama.cpp has no `MOSTLY_Q8_1` member. -/

inductive llama_ftype where
  | ALL_F32
  | MOSTLY_F16
  | MOSTLY_Q4_0
  | MOSTLY_Q4_1
  | MOSTLY_Q5_0
  | MOSTLY_Q5_1
  | MOSTLY_Q8_0
  | MOSTLY_Q2_K
  | MOSTLY_Q3_K_S
  | MOSTLY_Q3_K_M
  | MOSTLY_Q3_K_L
  | MOSTLY_Q4_K_S
  | MOSTLY_Q4_K_M
  | MOSTLY_Q5_K_S
  | MOSTLY_Q5_K_M
  | MOSTLY_Q6_K
deriving DecidableEq

/-! ## Path helpers (std::filesystem::path semantics used by the bridge) -/

/-- `fs::path::filename`: the component after the last directory separator. -/
def filenameOf (p : String) : String :=
  String.mk ((p.data.reverse.takeWhile (fun c => c ≠ '/')).reverse)

/-- `fs::path::extension`: from the last dot of the filename (inclusive),
empty for `.`, `..`, dotless names and hidden files whose only dot is
leading. -/
def extensionOf (p : String) : String :=
  let f := filenameOf p
  if f = "." || f = ".." then ""
  else
    let cs := f.data
    let k := (cs.reverse.takeWhile (fun c => c ≠ '.')).length
    if k = cs.length then ""
    else if cs.length - k - 1 = 0 then ""
    else String.mk (cs.drop (cs.length - k - 1))

/-- `fs::path::operator/`: append a component (no separator after an empty
left-hand side, matching how the bridge uses it). -/
def pjoin (a b : String) : String := if a = "" then b else a ++ "/" ++ b

/-- `fs::path::parent_path`: the path without its filename and without the
trailing separator (a root `/` is kept). -/
def parentPath (p : String) : String :=
  let f := filenameOf p
  let pre := String.mk (p.data.take (p.data.length - f.data.length))
  if pre = "/" then "/"
  else if pre.data.getLast? = some '/' then String.mk (pre.data.dropLast)
  else pre

/-! ## Filesystem oracle -/

/-- Read-only filesystem state as observed by the bridge.  `recFiles` is
the list of regular files yielded by a recursive directory iteration
(the `is_regular_file` filter already applied); `sizeFault` says whether
the file-size computation for a path throws, with `faultMsg` the
exception text. -/
structure FileSystem where
  pathExists : String → Bool
  isDirectory : String → Bool
  fileLines : String → List String
  fileSize : String → Nat
  recFiles : String → List String
  sizeFault : String → Bool
  faultMsg : String → String

/-- `detect_format_impl` (gguf_bridge.cpp lines 77-128). -/
def detect_format_impl (fs : FileSystem) (path : String) : String :=
  if fs.pathExists path = false then ""
  else if extensionOf path = ".gguf" then "gguf"
  else
    let byDir : Option String :=
      if fs.isDirectory path then
        if fs.pathExists (pjoin path "pytorch_model.bin")
            || fs.pathExists (pjoin path "model.safetensors")
            || fs.pathExists (pjoin path "pytorch_model-00001-of-00002.bin") then
          some (if fs.pathExists (pjoin path "model.safetensors") then "safetensors"
                else "pytorch")
        else if fs.pathExists (pjoin path "saved_model.pb")
            || fs.pathExists (pjoin path "tf_model.h5") then some "tensorflow"
        else if fs.pathExists (pjoin path "flax_model.msgpack") then some "flax"
        else none
      else none
    match byDir with
    | some tag => tag
    | none =>
      let ext := extensionOf path
      if ext = ".bin" || ext = ".pt" || ext = ".pth" then "pytorch"
      else if ext = ".safetensors" then "safetensors"
      else if ext = ".h5" || ext = ".pb" then "tensorflow"
      else if ext = ".msgpack" then "flax"
      else ""

/-- `gguf_detect_format` (lines 476-483): null path yields null; an empty
detection result is returned as null. -/
def gguf_detect_format (fs : FileSystem) (path : Option String) : Option String :=
  match path with
  | none => none
  | some p =>
    let f := detect_format_impl fs p
    if f = "" then none else some f

example : extensionOf "model.pt" = ".pt" := by decide
example : extensionOf "/m/in.gguf" = ".gguf" := by decide
example : extensionOf "/models/llama" = "" := by decide
example : extensionOf ".gitignore" = "" := by decide
example : parentPath "/m/w.bin" = "/m" := by decide

/-! ## String heap: nullable C strings across the API boundary -/

/-- Heap of C strings.  `mem` gives the contents at an address, `next` is
the next fresh address (every live caller allocation sits below it),
`freedList` records addresses handed to `free`. -/
structure StrHeap where
  mem : Nat → String
  next : Nat
  freedList : List Nat

/-- `strdup`: allocate a fresh address holding a copy of `s`. -/
def allocStr (h : StrHeap) (s : String) : Nat × StrHeap :=
  (h.next,
   { mem := fun a => if a = h.next then s else h.mem a,
     next := h.next + 1,
     freedList := h.freedList })

/-- Dereference a nullable string pointer. -/
def derefStr (h : StrHeap) (a : Option Nat) : Option String :=
  match a with
  | none => none
  | some addr => some (h.mem addr)

/-- The guarded `strdup` in `gguf_create_context`: copy a field when the
pointer is non-null, reading the caller's buffer in the original heap
`h0` and allocating in the current heap `h`. -/
def copyField (h0 : StrHeap) (h : StrHeap) (f : Option Nat) : Option Nat × StrHeap :=
  match f with
  | none => (none, h)
  | some a =>
    let r := allocStr h (h0.mem a)
    (some r.1, r.2)

/-! ## Parameters and context (`gguf_conversion_params_t`, `gguf_conversion_ctx`) -/

/-- `gguf_conversion_params_t`.  String members are nullable addresses into
the string heap; `metadata_overrides` is the (nullable) address of the
caller's override array; callback members are modelled by their
non-nullness. -/
structure ParamsP where
  input_path : Option Nat
  output_path : Option Nat
  model_type : Option Nat
  quantization : Option Nat
  vocab_only : Int
  use_mmap : Int
  num_threads : Int
  vocab_type : Option Nat
  pad_vocab : Int
  metadata_overrides : Option Nat
  progress_cb : Bool
  log_cb : Bool
deriving DecidableEq

/-- `gguf_conversion_ctx` (lines 42-69): parameter snapshot, atomic
progress, atomic cancellation flag and the mutex-guarded stage label. -/
structure Ctx where
  params : ParamsP
  progress : Rat
  cancelled : Bool
  current_stage : String
deriving DecidableEq

/-- Observable effects of a bridge call: callback invocations, backend
runtime management, the external-process spawn and the in-process
quantize call. -/
inductive Effect where
  | progress (p : Rat) (stage : String)
  | logMsg (level : Int) (msg : String)
  | backendInit
  | backendFree
  | spawn (cmd : String)
  | quantize (input output : String) (ftype : llama_ftype) (nthread : Int)
deriving DecidableEq

/-- The callback invocation of `set_progress`: fires only when a progress
callback was registered. -/
def setProgressEv (p : ParamsP) (pr : Rat) (stage : String) : List Effect :=
  if p.progress_cb then [Effect.progress pr stage] else []

/-- The callback invocation of `gguf_conversion_ctx::log`: fires only when
a log callback was registered. -/
def logEv (p : ParamsP) (level : Int) (msg : String) : List Effect :=
  if p.log_cb then [Effect.logMsg level msg] else []

/-! ## Quantization identifiers and the string-to-ftype table -/

/-- `QUANTIZATION_TYPES` (lines 30-39): the enumerated identifier set. -/
def QUANTIZATION_TYPES : List String :=
  ["f32", "f16",
   "q4_0", "q4_1", "q5_0", "q5_1",
   "q8_0", "q8_1",
   "q2_k", "q3_k_s", "q3_k_m", "q3_k_l",
   "q4_k_s", "q4_k_m",
   "q5_k_s", "q5_k_m",
   "q6_k"]

/-- The if-else chain of `gguf_convert` mapping the quantization string to
`llama_ftype` (lines 392-407), embedded as a first-match association
list in the chain's order.  Note: there is no entry for `q8_1`. -/
def quant_ftype_table : List (String × llama_ftype) :=
  [("f32", llama_ftype.ALL_F32),
   ("f16", llama_ftype.MOSTLY_F16),
   ("q8_0", llama_ftype.MOSTLY_Q8_0),
   ("q4_0", llama_ftype.MOSTLY_Q4_0),
   ("q4_1", llama_ftype.MOSTLY_Q4_1),
   ("q5_0", llama_ftype.MOSTLY_Q5_0),
   ("q5_1", llama_ftype.MOSTLY_Q5_1),
   ("q2_k", llama_ftype.MOSTLY_Q2_K),
   ("q3_k_s", llama_ftype.MOSTLY_Q3_K_S),
   ("q3_k_m", llama_ftype.MOSTLY_Q3_K_M),
   ("q3_k_l", llama_ftype.MOSTLY_Q3_K_L),
   ("q4_k_s", llama_ftype.MOSTLY_Q4_K_S),
   ("q4_k_m", llama_ftype.MOSTLY_Q4_K_M),
   ("q5_k_s", llama_ftype.MOSTLY_Q5_K_S),
   ("q5_k_m", llama_ftype.MOSTLY_Q5_K_M),
   ("q6_k", llama_ftype.MOSTLY_Q6_K)]

/-- The mapped target ftype: first matching chain branch, with the chain's
initializer `LLAMA_FTYPE_MOSTLY_F16` as the value when no branch fires. -/
def map_quant_ftype (q : String) : llama_ftype :=
  match quant_ftype_table.find? (fun e => e.1 = q) with
  | some e => e.2
  | none => llama_ftype.MOSTLY_F16

/-! ## Progress checkpoint values (the float literals 0.1f, 0.2f, 0.3f),
as reduced rationals so that they evaluate inside the kernel. -/

/-- The checkpoint literal `0.1f`. -/
def tenth1 : Rat := { num := 1, den := 10 }

/-- The checkpoint literal `0.2f`. -/
def tenth2 : Rat := { num := 1, den := 5 }

/-- The checkpoint literal `0.3f`. -/
def tenth3 : Rat := { num := 3, den := 10 }

/-! ## The conversion backend oracle and `gguf_convert` -/

/-- Environment behaviour of the two backends: the exit status of the
spawned `system` command and the return value of
`llama_model_quantize`. -/
structure Backend where
  systemExit : String → Int
  quantizeResult : String → String → llama_ftype → Int → Nat

/-- Result of a `gguf_convert` call: the returned code, the context after
the call, the effect trace and the value written to the thread-local
last-error slot (`none` when the call did not write it). -/
structure ConvertOut where
  code : Int
  ctx : Ctx
  events : List Effect
  errWrite : Option String
deriving DecidableEq

/-- The conversion-script location built from `__FILE__` (line 354); a
compile-time constant of the program, kept abstract as a fixed string. -/
def conv_script : String :=
  "gguf-bridge/../../vendor/llama-cpp/llama.cpp/convert_hf_to_gguf.py"

/-- The `system` command built by the out-of-process path (lines 352-371). -/
def build_convert_cmd (h : StrHeap) (p : ParamsP)
    (input_path output_path quant : String) : String :=
  "python3 " ++ conv_script ++ " "
  ++ "\"" ++ input_path ++ "\" "
  ++ "--outfile \"" ++ output_path ++ "\" "
  ++ "--outtype " ++ quant ++ " "
  ++ (if p.vocab_only ≠ 0 then "--vocab-only " else "")
  ++ (match derefStr h p.model_type with
      | some mt => "--model-type " ++ mt ++ " "
      | none => "")
  ++ (if p.num_threads > 0 then "--threads " ++ toString p.num_threads ++ " " else "")

/-- `gguf_convert` (lines 305-446) on a non-null context.  Null string
parameters are totalised with `""` where the C code would dereference
them; a context produced by `gguf_create_context` always has non-null
input, output and (when supplied) quantization strings. -/
def gguf_convert (fs : FileSystem) (be : Backend) (h : StrHeap) (ctx : Ctx) : ConvertOut :=
  let ctx0 : Ctx := { ctx with progress := 0, current_stage := "Initializing conversion" }
  let e0 := setProgressEv ctx.params 0 "Initializing conversion"
            ++ logEv ctx.params 1 "Starting conversion..."
  if ctx0.cancelled then
    { code := GGUF_ERROR_CANCELLED, ctx := ctx0, events := e0,
      errWrite := some "Conversion cancelled" }
  else
    let quant := (derefStr h ctx.params.quantization).getD ""
    if (QUANTIZATION_TYPES.any (fun t => quant = t)) = false then
      { code := GGUF_ERROR_INVALID_QUANTIZATION, ctx := ctx0, events := e0,
        errWrite := some ("Invalid quantization type: " ++ quant) }
    else
      let ctx1 : Ctx := { ctx0 with progress := tenth1, current_stage := "Loading model" }
      let e1 := e0 ++ setProgressEv ctx.params tenth1 "Loading model"
                ++ [Effect.backendInit]
      let input_path := (derefStr h ctx.params.input_path).getD ""
      let output_path := (derefStr h ctx.params.output_path).getD ""
      let input_ext := extensionOf input_path
      if fs.isDirectory input_path || input_ext = ".bin" || input_ext = ".safetensors" then
        let ctx3 : Ctx := { ctx1 with
                            progress := tenth3,
                            current_stage := "Executing conversion script" }
        let cmd := build_convert_cmd h ctx.params input_path output_path quant
        let e2 := e1 ++ setProgressEv ctx.params tenth2 "Preparing conversion parameters"
                  ++ setProgressEv ctx.params tenth3 "Executing conversion script"
                  ++ logEv ctx.params 1 ("Running: " ++ cmd)
                  ++ [Effect.spawn cmd]
        if be.systemExit cmd ≠ 0 then
          { code := GGUF_ERROR_CONVERSION_FAILED, ctx := ctx3,
            events := e2 ++ [Effect.backendFree],
            errWrite := some ("Python conversion script failed with code: "
                              ++ toString (be.systemExit cmd)) }
        else
          { code := GGUF_SUCCESS,
            ctx := { ctx3 with progress := 1, current_stage := "Complete" },
            events := e2 ++ setProgressEv ctx.params 1 "Complete"
                      ++ logEv ctx.params 1 "Conversion completed successfully"
                      ++ [Effect.backendFree],
            errWrite := none }
      else if input_ext = ".gguf" then
        let ftype := map_quant_ftype quant
        let ctx3 : Ctx := { ctx1 with
                            progress := tenth3,
                            current_stage := "Starting quantization process" }
        let e2 := e1 ++ setProgressEv ctx.params tenth2 "Preparing quantization parameters"
                  ++ setProgressEv ctx.params tenth3 "Starting quantization process"
                  ++ [Effect.quantize input_path output_path ftype ctx.params.num_threads]
        if be.quantizeResult input_path output_path ftype ctx.params.num_threads ≠ 0 then
          { code := GGUF_ERROR_CONVERSION_FAILED, ctx := ctx3,
            events := e2 ++ [Effect.backendFree],
            errWrite := some ("llama.cpp quantization failed with code: "
                              ++ toString (be.quantizeResult input_path output_path ftype
                                           ctx.params.num_threads)) }
        else
          { code := GGUF_SUCCESS,
            ctx := { ctx3 with progress := 1, current_stage := "Complete" },
            events := e2 ++ setProgressEv ctx.params 1 "Complete"
                      ++ logEv ctx.params 1 "Conversion completed successfully"
                      ++ [Effect.backendFree],
            errWrite := none }
      else
        { code := GGUF_ERROR_INVALID_FORMAT, ctx := ctx1,
          events := e1 ++ [Effect.backendFree],
          errWrite := some ("Unsupported input format: " ++ input_ext) }

/-! ## `gguf_create_context` (lines 220-257) -/

/-- Result of a `gguf_create_context` call: the returned handle together
with the heap after the `strdup`s, the emitted log events and the value
written to the last-error slot. -/
structure CreateOut where
  handle : Option (Ctx × StrHeap)
  events : List Effect
  errWrite : Option String

/-- `gguf_create_context`: reject null input/output pointers, reject an
input path that does not exist, then build the context with the five
string fields duplicated into fresh storage; every other member of the
parameter struct -- including the `metadata_overrides` pointer -- is
copied bitwise by `ctx->params = *params`. -/
def gguf_create_context (fs : FileSystem) (h : StrHeap) (p : ParamsP) : CreateOut :=
  if p.input_path = none || p.output_path = none then
    { handle := none, events := [],
      errWrite := some "Invalid parameters: input_path and output_path are required" }
  else
    let inStr := (derefStr h p.input_path).getD ""
    let outStr := (derefStr h p.output_path).getD ""
    if fs.pathExists inStr = false then
      { handle := none, events := [],
        errWrite := some ("Input path not found: " ++ inStr) }
    else
      let c1 := copyField h h p.input_path
      let c2 := copyField h c1.2 p.output_path
      let c3 := copyField h c2.2 p.model_type
      let c4 := copyField h c3.2 p.quantization
      let c5 := copyField h c4.2 p.vocab_type
      let ctx : Ctx :=
        { params := { p with
                      input_path := c1.1,
                      output_path := c2.1,
                      model_type := c3.1,
                      quantization := c4.1,
                      vocab_type := c5.1 },
          progress := 0, cancelled := false, current_stage := "" }
      { handle := some (ctx, c5.2),
        events := logEv p 1 ("Created conversion context: " ++ inStr ++ " -> " ++ outStr),
        errWrite := none }

/-! ## Metadata extraction (`extract_model_info`, lines 131-191) -/

/-- `gguf_model_info_t`. -/
structure ModelInfo where
  model_type : String
  architecture : String
  parameter_count : Nat
  num_layers : Nat
  hidden_size : Nat
  vocab_size : Nat
  context_length : Nat
  quantization : String
  file_size : Nat
deriving DecidableEq

/-- The `memset(info, 0, sizeof(...))` zero state. -/
def zeroInfo : ModelInfo :=
  { model_type := "", architecture := "", parameter_count := 0, num_layers := 0,
    hidden_size := 0, vocab_size := 0, context_length := 0, quantization := "",
    file_size := 0 }

/-- `std::stoul` on the already-stripped value: an optional sign followed
by at least one decimal digit; no digit means `std::invalid_argument`
is thrown (`none`).  The numeric value abstracts from the unsigned
wrap of a negative input, which the bridge never relies on. -/
def cpp_stoul (s : String) : Option Nat :=
  let cs : List Char := match s.data with
    | '+' :: rest => rest
    | '-' :: rest => rest
    | other => other
  let digits := cs.takeWhile (fun c => c.isDigit)
  if digits.isEmpty then none
  else some (digits.foldl (fun n c => 10 * n + (c.toNat - 48)) 0)

/-- Split a config line at its first colon (`line.find(':')`); `none` when
the line has no colon. -/
def splitFirstColon : List Char → Option (List Char × List Char)
  | [] => none
  | c :: rest =>
    if c = ':' then some ([], rest)
    else match splitFirstColon rest with
      | none => none
      | some kv => some (c :: kv.1, kv.2)

/-- The character strip applied to keys: remove quotes and whitespace. -/
def strip_key (s : List Char) : List Char :=
  s.filter (fun c => !(c = '"' || c = ' ' || c = '\t'))

/-- The character strip applied to values: remove quotes, commas and
whitespace. -/
def strip_value (s : List Char) : List Char :=
  s.filter (fun c => !(c = '"' || c = ',' || c = ' ' || c = '\t'))

/-- `std::map` assignment `config[key] = value`: overwrite or insert. -/
def mapSet (m : List (String × String)) (k v : String) : List (String × String) :=
  (k, v) :: m.filter (fun e => e.1 ≠ k)

/-- `std::map` lookup used through `config.count(...)` / `config[...]`. -/
def mapGet (m : List (String × String)) (k : String) : Option String :=
  match m.find? (fun e => e.1 = k) with
  | some e => some e.2
  | none => none

/-- The line loop of `extract_model_info`: build the key-value map from
the config file's lines. -/
def config_of_lines (lines : List String) : List (String × String) :=
  lines.foldl
    (fun m line =>
      match splitFirstColon line.data with
      | none => m
      | some kv => mapSet m (String.mk (strip_key kv.1)) (String.mk (strip_value kv.2)))
    []

/-- One guarded numeric field: absent key leaves the current value; a
present key goes through `std::stoul`, which may throw. -/
def numField (config : List (String × String)) (key : String) (cur : Nat) : Option Nat :=
  match mapGet config key with
  | none => some cur
  | some v => cpp_stoul v

/-- Result of `extract_model_info`: either a normal return carrying the
boolean result and the info written, or an exception escaping the
function (`std::invalid_argument` from `std::stoul`, whose `what()` is
the literal "stoul"). -/
inductive ExtractResult where
  | ret (found : Bool) (info : ModelInfo)
  | thrown (what : String)
deriving DecidableEq

/-- `extract_model_info`: locate the sidecar `config.json` (inside a
directory input, else next to the file), scrape key:value lines, then
write the recognized fields; the four `std::stoul` calls are
unguarded.  The open-failure branch (`!file.is_open()`) is not
modelled separately: an existing file is readable in this embedding. -/
def extract_model_info (fs : FileSystem) (path : String) (info0 : ModelInfo) :
    ExtractResult :=
  let config_path :=
    if fs.isDirectory path then pjoin path "config.json"
    else pjoin (parentPath path) "config.json"
  if fs.pathExists config_path = false then ExtractResult.ret false info0
  else
    let config := config_of_lines (fs.fileLines config_path)
    let i1 := match mapGet config "model_type" with
      | some v => { info0 with model_type := v.take 63 }
      | none => info0
    let i2 := match mapGet config "architectures" with
      | some v => { i1 with architecture := v.take 63 }
      | none => i1
    match numField config "hidden_size" i2.hidden_size,
          numField config "num_hidden_layers" i2.num_layers,
          numField config "vocab_size" i2.vocab_size,
          numField config "max_position_embeddings" i2.context_length with
    | some hs, some nl, some vs, some cl =>
      ExtractResult.ret true
        { i2 with hidden_size := hs, num_layers := nl, vocab_size := vs,
                  context_length := cl }
    | _, _, _, _ => ExtractResult.thrown "stoul"

/-! ## `gguf_validate_input` (lines 259-303) -/

/-- How a `gguf_validate_input` call ends: a returned result code, or a
C++ exception escaping the function. -/
inductive VResult where
  | retCode (code : Int)
  | thrown (what : String)
deriving DecidableEq

/-- Result of a `gguf_validate_input` call on a non-null context: how the
call ended, the context afterwards, the caller's info struct contents
(`none` when not written or when the call threw before finishing), the
emitted events and the last-error write. -/
structure ValidateOut where
  result : VResult
  ctx : Ctx
  info : Option ModelInfo
  events : List Effect
  errWrite : Option String

/-- `gguf_validate_input` on a non-null context: detect the format (fail
with `GGUF_ERROR_INVALID_FORMAT` when undetected), then -- when the
caller passed an info struct -- zero it, run the unguarded
`extract_model_info`, and compute the input size inside the one
`try/catch` the function has. -/
def gguf_validate_input (fs : FileSystem) (h : StrHeap) (ctx : Ctx) (wantInfo : Bool) :
    ValidateOut :=
  let input_path := (derefStr h ctx.params.input_path).getD ""
  let format := detect_format_impl fs input_path
  if format = "" then
    { result := VResult.retCode GGUF_ERROR_INVALID_FORMAT, ctx := ctx, info := none,
      events := [],
      errWrite := some ("Could not detect model format from: " ++ input_path) }
  else
    let e1 := logEv ctx.params 1 ("Detected format: " ++ format)
    if wantInfo = false then
      { result := VResult.retCode GGUF_SUCCESS, ctx := ctx, info := none,
        events := e1, errWrite := none }
    else
      match extract_model_info fs input_path zeroInfo with
      | ExtractResult.thrown w =>
        { result := VResult.thrown w, ctx := ctx, info := none, events := e1,
          errWrite := none }
      | ExtractResult.ret found i1 =>
        let e2 := if found then []
                  else logEv ctx.params 2 "Warning: Could not extract full model info from config"
        let info2 :=
          if fs.sizeFault input_path then i1
          else if fs.isDirectory input_path then
            { i1 with file_size :=
                (fs.recFiles input_path).foldl (fun t f => t + fs.fileSize f) 0 }
          else { i1 with file_size := fs.fileSize input_path }
        let e3 :=
          if fs.sizeFault input_path then
            logEv ctx.params 2
              ("Warning: Could not determine file size: " ++ fs.faultMsg input_path)
          else []
        { result := VResult.retCode GGUF_SUCCESS, ctx := ctx, info := some info2,
          events := e1 ++ e2 ++ e3, errWrite := none }

/-! ## The small API entry points (lines 209-218, 448-483) -/

/-- `gguf_cancel`: null-tolerant; sets the set-once cancellation flag and
logs. -/
def gguf_cancel (octx : Option Ctx) : Option Ctx × List Effect :=
  match octx with
  | none => (none, [])
  | some c => (some { c with cancelled := true }, logEv c.params 2 "Cancellation requested")

/-- `gguf_is_cancelled`: `ctx ? ctx->cancelled.load() : 0`. -/
def gguf_is_cancelled (octx : Option Ctx) : Int :=
  match octx with
  | none => 0
  | some c => if c.cancelled then 1 else 0

/-- `gguf_get_progress`: `ctx ? ctx->progress.load() : -1.0f`. -/
def gguf_get_progress (octx : Option Ctx) : Rat :=
  match octx with
  | none => -1
  | some c => c.progress

/-- The addresses `gguf_free_context` hands to `free`: the five duplicated
string fields when non-null; `metadata_overrides` is not freed. -/
def freeAddrs (p : ParamsP) : List Nat :=
  p.input_path.toList ++ p.output_path.toList ++ p.model_type.toList
  ++ p.quantization.toList ++ p.vocab_type.toList

/-- `gguf_free_context`: a null handle is a no-op; otherwise the five
owned strings are freed and the context deleted. -/
def gguf_free_context (h : StrHeap) (octx : Option Ctx) : StrHeap :=
  match octx with
  | none => h
  | some c => { h with freedList := freeAddrs c.params ++ h.freedList }

/-- The address of the program's static string literal "f16" assigned by
`gguf_default_params`; modelled as the distinguished address 0. -/
def F16_STATIC_ADDR : Nat := 0

/-- `gguf_default_params`: null-tolerant; zero the struct then set the
defaults (quantization "f16", mmap on, auto threads). -/
def gguf_default_params (op : Option ParamsP) : Option ParamsP :=
  match op with
  | none => none
  | some _ =>
    some { input_path := none, output_path := none, model_type := none,
           quantization := some F16_STATIC_ADDR, vocab_only := 0, use_mmap := 1,
           num_threads := 0, vocab_type := none, pad_vocab := 0,
           metadata_overrides := none, progress_cb := false, log_cb := false }

/-! ## Trace observers -/

/-- The progress-callback invocations in a trace, in order. -/
def progressEvents (evs : List Effect) : List (Rat × String) :=
  evs.filterMap (fun e => match e with
    | Effect.progress p s => some (p, s)
    | _ => none)

/-- The external-process spawns in a trace. -/
def spawnCalls (evs : List Effect) : List Effect :=
  evs.filter (fun e => match e with
    | Effect.spawn _ => true
    | _ => false)

/-- The in-process quantize calls in a trace. -/
def quantizeCalls (evs : List Effect) : List Effect :=
  evs.filter (fun e => match e with
    | Effect.quantize _ _ _ _ => true
    | _ => false)

/-- Whether an effect touches the backend: runtime init/free, process
spawn or quantize call. -/
def isBackendEffect : Effect → Bool
  | Effect.backendInit => true
  | Effect.backendFree => true
  | Effect.spawn _ => true
  | Effect.quantize _ _ _ _ => true
  | _ => false

/-- A trace containing callback invocations only: no backend activity. -/
def noBackendEffects (evs : List Effect) : Bool :=
  evs.all (fun e => !isBackendEffect e)

/-! ## Concrete fixtures used by witnesses and counterexamples -/

/-- An empty filesystem to build concrete states from. -/
def emptyFS : FileSystem :=
  { pathExists := fun _ => false, isDirectory := fun _ => false,
    fileLines := fun _ => [], fileSize := fun _ => 0, recFiles := fun _ => [],
    sizeFault := fun _ => false, faultMsg := fun _ => "" }

/-- Filesystem holding a single GGUF file `/m/in.gguf`. -/
def fsW : FileSystem := { emptyFS with pathExists := fun p => p == "/m/in.gguf" }

/-- Caller heap: addresses 3,4,5 hold the caller's parameter strings,
address 7 is the caller's metadata-override array; allocation starts
at 10. -/
def hW : StrHeap :=
  { mem := fun a => if a = 3 then "/m/in.gguf"
                    else if a = 4 then "/m/out.gguf"
                    else if a = 5 then "q4_0" else "",
    next := 10, freedList := [] }

/-- A backend whose script and quantize calls both succeed. -/
def beW : Backend := { systemExit := fun _ => 0, quantizeResult := fun _ _ _ _ => 0 }

/-- Caller parameters: in-process quantization job of `/m/in.gguf` with a
progress callback registered. -/
def pW : ParamsP :=
  { input_path := some 3, output_path := some 4, model_type := none,
    quantization := some 5, vocab_only := 0, use_mmap := 1, num_threads := 0,
    vocab_type := none, pad_vocab := 0, metadata_overrides := some 7,
    progress_cb := true, log_cb := false }

/-- A default to destructure `Option (Ctx × StrHeap)` with. -/
def dummyHandle : Ctx × StrHeap :=
  ({ params := pW, progress := 0, cancelled := false, current_stage := "" }, hW)

example : (gguf_create_context fsW hW pW).handle.isSome = true := by decide

example :
    (gguf_convert fsW beW ((gguf_create_context fsW hW pW).handle.getD dummyHandle).2
      ((gguf_create_context fsW hW pW).handle.getD dummyHandle).1).code = GGUF_SUCCESS := by
  decide

example :
    progressEvents (gguf_convert fsW beW
      ((gguf_create_context fsW hW pW).handle.getD dummyHandle).2
      ((gguf_create_context fsW hW pW).handle.getD dummyHandle).1).events
    = [(0, "Initializing conversion"), (tenth1, "Loading model"),
       (tenth2, "Preparing quantization parameters"), (tenth3, "Starting quantization process"),
       (1, "Complete")] := by decide

/-! ## Claim theorems -/

/-- Claim C9: every public operation tolerates a null handle or null
pointer argument: `gguf_free_context(NULL)` and `gguf_cancel(NULL)` are
no-ops, `gguf_get_progress(NULL)` returns the sentinel -1.0,
`gguf_is_cancelled(NULL)` returns 0, `gguf_default_params(NULL)` is a
no-op, and `gguf_detect_format(NULL)` returns NULL. -/
theorem null_arguments_are_safe :
    (∀ h : StrHeap, gguf_free_context h none = h)
    ∧ gguf_cancel none = (none, [])
    ∧ gguf_get_progress none = -1
    ∧ gguf_is_cancelled none = 0
    ∧ gguf_default_params none = none
    ∧ (∀ fs : FileSystem, gguf_detect_format fs none = none) := by
  exact ⟨fun h => rfl, rfl, rfl, rfl, rfl, fun fs => rfl⟩

/-- Claim C6: format detection is a deterministic, idempotent function of
the path and the filesystem state (two calls with the filesystem
unchanged agree); an existing path with extension `.gguf` yields the
tag `gguf` regardless of the directory's contents (the filesystem is
universally quantified); a nonexistent path yields the undetected
result (null), not an error. -/
theorem detect_format_deterministic_gguf_and_missing :
    ∀ (fs : FileSystem) (p : String),
      gguf_detect_format fs (some p) = gguf_detect_format fs (some p)
      ∧ (fs.pathExists p = true → extensionOf p = ".gguf" →
          gguf_detect_format fs (some p) = some "gguf")
      ∧ (fs.pathExists p = false → gguf_detect_format fs (some p) = none) := by
  intro fs p
  refine ⟨rfl, ?_, ?_⟩
  · intro hex hgg
    simp [gguf_detect_format, detect_format_impl, hex, hgg]
  · intro hnex
    simp [gguf_detect_format, detect_format_impl, hnex]

/-- Witness for C6 at concrete inputs: a present `.gguf` file is tagged
`gguf` and a missing path is undetected. -/
theorem detect_format_deterministic_gguf_and_missing_witness :
    gguf_detect_format fsW (some "/m/in.gguf") = some "gguf"
    ∧ gguf_detect_format fsW (some "/nope") = none :=
  ⟨(detect_format_deterministic_gguf_and_missing fsW "/m/in.gguf").2.1 (by decide) (by decide),
   (detect_format_deterministic_gguf_and_missing fsW "/nope").2.2 (by decide)⟩

/-- Claim C7: for every context on which `gguf_cancel` was called before
`gguf_convert`, convert returns `GGUF_ERROR_CANCELLED` and the trace
contains no backend effect: no backend runtime initialization, no
external-process spawn and no in-process quantize call. -/
theorem cancel_then_convert_is_cancelled :
    ∀ (fs : FileSystem) (be : Backend) (h : StrHeap) (ctx : Ctx),
      ∃ c2 : Ctx, (gguf_cancel (some ctx)).1 = some c2
        ∧ (gguf_convert fs be h c2).code = GGUF_ERROR_CANCELLED
        ∧ noBackendEffects (gguf_convert fs be h c2).events = true := by
  intro fs be h ctx
  refine ⟨{ ctx with cancelled := true }, rfl, ?_, ?_⟩
  · simp [gguf_convert, gguf_cancel]
  · simp only [gguf_convert]
    cases hp : ctx.params.progress_cb
      <;> cases hl : ctx.params.log_cb
      <;> simp [setProgressEv, logEv, noBackendEffects, isBackendEffect, hp, hl]

/-- Claim C10: `gguf_validate_input` leaves the context's state unchanged
(parameter snapshot, progress, cancellation flag and stage label), and
its effect trace consists of log-channel messages only; the model's
return value carries the only other writes (the caller's info struct
and the thread-local last-error slot). -/
theorem validate_input_preserves_context :
    ∀ (fs : FileSystem) (h : StrHeap) (ctx : Ctx) (wantInfo : Bool),
      (gguf_validate_input fs h ctx wantInfo).ctx = ctx
      ∧ ((gguf_validate_input fs h ctx wantInfo).events.all
          (fun e => match e with
            | Effect.logMsg _ _ => true
            | _ => false)) = true := by
  intro fs h ctx wantInfo
  constructor
  · simp only [gguf_validate_input]
    repeat' split
    all_goals rfl
  · simp only [gguf_validate_input]
    cases hl : ctx.params.log_cb
    all_goals repeat' split
    all_goals simp [logEv, hl]

/-- Claim C3: quantization-identifier validation happens at convert time,
not creation time.  `gguf_create_context` succeeds for any quantization
pointer whenever the paths are valid; `gguf_convert` with a
quantization string outside the enumerated set fails with
`GGUF_ERROR_INVALID_QUANTIZATION` before any backend effect (so nothing
is written to the output path, which only backend calls touch); with a
string inside the set it never fails with that code. -/
theorem quantization_validated_at_convert_time :
    ∀ (fs : FileSystem) (be : Backend) (h : StrHeap) (ctx : Ctx) (q : String),
      derefStr h ctx.params.quantization = some q →
      ctx.cancelled = false →
      (q ∉ QUANTIZATION_TYPES →
        (gguf_convert fs be h ctx).code = GGUF_ERROR_INVALID_QUANTIZATION
        ∧ noBackendEffects (gguf_convert fs be h ctx).events = true)
      ∧ (q ∈ QUANTIZATION_TYPES →
        (gguf_convert fs be h ctx).code ≠ GGUF_ERROR_INVALID_QUANTIZATION)
      ∧ (∀ p : ParamsP,
          p.input_path ≠ none → p.output_path ≠ none →
          fs.pathExists ((derefStr h p.input_path).getD "") = true →
          (gguf_create_context fs h p).handle.isSome = true) := by
  intro fs be h ctx q hq hc
  have hany : ((QUANTIZATION_TYPES.any fun t => q = t) = true) ↔ q ∈ QUANTIZATION_TYPES := by
    rw [List.any_eq_true]
    constructor
    · rintro ⟨t, ht, he⟩
      have hqt : q = t := of_decide_eq_true he
      rwa [hqt]
    · intro hm
      exact ⟨q, hm, decide_eq_true rfl⟩
  refine ⟨?_, ?_, ?_⟩
  · intro hout
    have hf : (QUANTIZATION_TYPES.any fun t => q = t) = false := by
      rw [Bool.eq_false_iff]
      intro htrue
      exact hout (hany.mp htrue)
    constructor
    · simp only [gguf_convert, hq, Option.getD_some, hc, hf]
      simp
    · simp only [gguf_convert, hq, Option.getD_some, hc, hf]
      cases hp : ctx.params.progress_cb
        <;> cases hl : ctx.params.log_cb
        <;> simp [setProgressEv, logEv, noBackendEffects, isBackendEffect, hp, hl]
  · intro hin
    have ht : (QUANTIZATION_TYPES.any fun t => q = t) = true := hany.mpr hin
    simp only [gguf_convert, hq, Option.getD_some, hc, ht]
    repeat' split
    all_goals simp_all [GGUF_SUCCESS, GGUF_ERROR_CONVERSION_FAILED, GGUF_ERROR_INVALID_FORMAT,
      GGUF_ERROR_INVALID_QUANTIZATION, GGUF_ERROR_CANCELLED]
  · intro p hip hop hex
    simp only [gguf_create_context]
    rw [if_neg, if_neg]
    · simp
    · simp [hex]
    · simp [hip, hop]

/-- Heap for the C3 witness: caller strings plus an invalid quantization
identifier at address 6. -/
def hC3 : StrHeap :=
  { mem := fun a => if a = 3 then "/m/in.gguf"
                    else if a = 4 then "/m/out.gguf"
                    else if a = 5 then "q4_0"
                    else if a = 6 then "zzz" else "",
    next := 10, freedList := [] }

/-- A context whose quantization string is the valid `q4_0`. -/
def ctxGoodQ : Ctx := { params := pW, progress := 0, cancelled := false, current_stage := "" }

/-- Parameters whose quantization string is the invalid `zzz`. -/
def pBadQ : ParamsP := { pW with quantization := some 6 }

/-- A context whose quantization string is the invalid `zzz`. -/
def ctxBadQ : Ctx := { params := pBadQ, progress := 0, cancelled := false, current_stage := "" }

/-- Witness for C3 at concrete inputs: the invalid identifier `zzz` is
rejected at convert time with no backend effect, the valid `q4_0` is
not rejected, and creation succeeds even with the invalid identifier. -/
theorem quantization_validated_at_convert_time_witness :
    (gguf_convert fsW beW hC3 ctxBadQ).code = GGUF_ERROR_INVALID_QUANTIZATION
    ∧ noBackendEffects (gguf_convert fsW beW hC3 ctxBadQ).events = true
    ∧ (gguf_convert fsW beW hC3 ctxGoodQ).code ≠ GGUF_ERROR_INVALID_QUANTIZATION
    ∧ (gguf_create_context fsW hC3 pBadQ).handle.isSome = true := by
  refine ⟨?_, ?_, ?_, ?_⟩
  · exact ((quantization_validated_at_convert_time fsW beW hC3 ctxBadQ "zzz"
      (by decide) (by decide)).1 (by decide)).1
  · exact ((quantization_validated_at_convert_time fsW beW hC3 ctxBadQ "zzz"
      (by decide) (by decide)).1 (by decide)).2
  · exact (quantization_validated_at_convert_time fsW beW hC3 ctxGoodQ "q4_0"
      (by decide) (by decide)).2.1 (by decide)
  · exact (quantization_validated_at_convert_time fsW beW hC3 ctxBadQ "zzz"
      (by decide) (by decide)).2.2 pBadQ (by decide) (by decide) (by decide)

/-- Claim C8: progress reporting follows the fixed checkpoints.  A freshly
created, not-yet-converted context reports progress 0.0; every
successful `gguf_convert` with a registered progress callback invokes
the callback with the non-decreasing checkpoint values
0.0, 0.1, 0.2, 0.3, 1.0 in that order, each with a non-empty stage
label, and `gguf_get_progress` afterwards returns 1.0. -/
theorem progress_checkpoints_fixed :
    (∀ (fs : FileSystem) (h : StrHeap) (p : ParamsP) (c : Ctx) (h2 : StrHeap),
      (gguf_create_context fs h p).handle = some (c, h2) →
      gguf_get_progress (some c) = 0)
    ∧ (∀ (fs : FileSystem) (be : Backend) (h : StrHeap) (ctx : Ctx),
      ctx.params.progress_cb = true →
      (gguf_convert fs be h ctx).code = GGUF_SUCCESS →
      (progressEvents (gguf_convert fs be h ctx).events).map Prod.fst
        = [0, tenth1, tenth2, tenth3, 1]
      ∧ (∀ e ∈ progressEvents (gguf_convert fs be h ctx).events, e.2 ≠ "")
      ∧ gguf_get_progress (some (gguf_convert fs be h ctx).ctx) = 1) := by
  constructor
  · intro fs h p c h2 hcr
    simp only [gguf_create_context] at hcr
    split at hcr
    · exact absurd hcr (by simp)
    · split at hcr
      · exact absurd hcr (by simp)
      · rw [Option.some.injEq, Prod.mk.injEq] at hcr
        obtain ⟨hA, hB⟩ := hcr
        simp only [gguf_get_progress]
        rw [← hA]
  · intro fs be h ctx hp hsucc
    cases hcan : ctx.cancelled with
    | true =>
      exfalso
      simp [gguf_convert, hcan, GGUF_ERROR_CANCELLED, GGUF_SUCCESS] at hsucc
    | false =>
      cases hq : QUANTIZATION_TYPES.any
          (fun t => (derefStr h ctx.params.quantization).getD "" = t) with
      | false =>
        exfalso
        simp [gguf_convert, hcan, hq, GGUF_ERROR_INVALID_QUANTIZATION, GGUF_SUCCESS] at hsucc
      | true =>
        cases hdir : (fs.isDirectory ((derefStr h ctx.params.input_path).getD "")
            || extensionOf ((derefStr h ctx.params.input_path).getD "") = ".bin"
            || extensionOf ((derefStr h ctx.params.input_path).getD "") = ".safetensors") with
        | true =>
          by_cases hr : be.systemExit
              (build_convert_cmd h ctx.params
                ((derefStr h ctx.params.input_path).getD "")
                ((derefStr h ctx.params.output_path).getD "")
                ((derefStr h ctx.params.quantization).getD "")) = 0
          · cases hl : ctx.params.log_cb
              <;> simp [gguf_convert, hcan, hq, hdir, hr, hp, hl, setProgressEv, logEv,
                    progressEvents, gguf_get_progress]
          · exfalso
            simp [gguf_convert, hcan, hq, hdir, hr, GGUF_ERROR_CONVERSION_FAILED,
              GGUF_SUCCESS] at hsucc
        | false =>
          rw [Bool.or_eq_false_iff, Bool.or_eq_false_iff] at hdir
          obtain ⟨⟨hd0, hb1⟩, hb2⟩ := hdir
          by_cases hgg : extensionOf ((derefStr h ctx.params.input_path).getD "") = ".gguf"
          · by_cases hr : be.quantizeResult
                ((derefStr h ctx.params.input_path).getD "")
                ((derefStr h ctx.params.output_path).getD "")
                (map_quant_ftype ((derefStr h ctx.params.quantization).getD ""))
                ctx.params.num_threads = 0
            · cases hl : ctx.params.log_cb
                <;> simp [gguf_convert, hcan, hq, hd0, hb1, hb2, hgg, hr, hp, hl,
                      setProgressEv, logEv, progressEvents, gguf_get_progress]
            · exfalso
              simp [gguf_convert, hcan, hq, hd0, hb1, hb2, hgg, hr,
                GGUF_ERROR_CONVERSION_FAILED, GGUF_SUCCESS] at hsucc
          · exfalso
            simp [gguf_convert, hcan, hq, hd0, hb1, hb2, hgg, GGUF_ERROR_INVALID_FORMAT,
              GGUF_SUCCESS] at hsucc

/-- Witness for C8 at concrete inputs: the freshly created context reports
progress 0; a successful in-process conversion fires the checkpoint
sequence and ends with progress 1. -/
theorem progress_checkpoints_fixed_witness :
    gguf_get_progress (some ((gguf_create_context fsW hW pW).handle.getD dummyHandle).1) = 0
    ∧ (progressEvents (gguf_convert fsW beW hW ctxGoodQ).events).map Prod.fst
        = [0, tenth1, tenth2, tenth3, 1]
    ∧ gguf_get_progress (some (gguf_convert fsW beW hW ctxGoodQ).ctx) = 1 := by
  refine ⟨?_, ?_, ?_⟩
  · exact progress_checkpoints_fixed.1 fsW hW pW
      ((gguf_create_context fsW hW pW).handle.getD dummyHandle).1
      ((gguf_create_context fsW hW pW).handle.getD dummyHandle).2 rfl
  · exact (progress_checkpoints_fixed.2 fsW beW hW ctxGoodQ (by decide) (by decide)).1
  · exact (progress_checkpoints_fixed.2 fsW beW hW ctxGoodQ (by decide) (by decide)).2.2

/-- Heap for the C1 counterexample: the input path is a PyTorch
checkpoint `/m/model.pt`. -/
def hPT : StrHeap :=
  { mem := fun a => if a = 3 then "/m/model.pt"
                    else if a = 4 then "/m/out.gguf"
                    else if a = 5 then "q4_0" else "",
    next := 10, freedList := [] }

/-- Context for the C1 counterexample. -/
def ctxPT : Ctx := { params := pW, progress := 0, cancelled := false, current_stage := "" }

/-- Filesystem in which `/m/model.pt` exists (so the detector's fallback
applies to it). -/
def fsPT : FileSystem := { emptyFS with pathExists := fun p => p == "/m/model.pt" }

/-- Counterexample for C1: the claim routes every raw-weights extension of
the detector's fallback (`.bin`/`.pt`/`.pth`) to the out-of-process
conversion path, but `gguf_convert` tests only `.bin` and
`.safetensors`: on a `.pt` input -- which the detector itself tags
`pytorch` -- convert spawns nothing and returns
`GGUF_ERROR_INVALID_FORMAT` naming `.pt`. -/
theorem convert_pt_input_refutes_claimed_dispatch :
    detect_format_impl fsPT "/m/model.pt" = "pytorch"
    ∧ (gguf_convert fsPT beW hPT ctxPT).code = GGUF_ERROR_INVALID_FORMAT
    ∧ (gguf_convert fsPT beW hPT ctxPT).errWrite = some "Unsupported input format: .pt"
    ∧ spawnCalls (gguf_convert fsPT beW hPT ctxPT).events = []
    ∧ quantizeCalls (gguf_convert fsPT beW hPT ctxPT).events = [] := by
  decide

/-- Claim C1 (amended): for every context with a valid quantization string
and no pending cancellation, `gguf_convert` dispatches by input shape
as the code tests it: a directory input or extension `.bin` or
`.safetensors` delegates to the out-of-process path (exactly one spawn
of the constructed command, no quantize call); extension `.gguf`
delegates to the in-process quantization path (exactly one quantize
call, no spawn); every other input -- including `.pt`/`.pth`, which the
detector's fallback would call raw-weights formats -- returns
`GGUF_ERROR_INVALID_FORMAT` with the unsupported extension named in the
error message and no backend dispatch. -/
theorem convert_dispatch_by_input_shape :
    ∀ (fs : FileSystem) (be : Backend) (h : StrHeap) (ctx : Ctx) (q ip op : String),
      ctx.cancelled = false →
      derefStr h ctx.params.quantization = some q →
      q ∈ QUANTIZATION_TYPES →
      derefStr h ctx.params.input_path = some ip →
      derefStr h ctx.params.output_path = some op →
      ((fs.isDirectory ip = true ∨ extensionOf ip = ".bin" ∨ extensionOf ip = ".safetensors") →
        spawnCalls (gguf_convert fs be h ctx).events
          = [Effect.spawn (build_convert_cmd h ctx.params ip op q)]
        ∧ quantizeCalls (gguf_convert fs be h ctx).events = [])
      ∧ (fs.isDirectory ip = false → extensionOf ip = ".gguf" →
        quantizeCalls (gguf_convert fs be h ctx).events
          = [Effect.quantize ip op (map_quant_ftype q) ctx.params.num_threads]
        ∧ spawnCalls (gguf_convert fs be h ctx).events = [])
      ∧ (fs.isDirectory ip = false → extensionOf ip ≠ ".bin" →
          extensionOf ip ≠ ".safetensors" → extensionOf ip ≠ ".gguf" →
        (gguf_convert fs be h ctx).code = GGUF_ERROR_INVALID_FORMAT
        ∧ (gguf_convert fs be h ctx).errWrite
            = some ("Unsupported input format: " ++ extensionOf ip)
        ∧ spawnCalls (gguf_convert fs be h ctx).events = []
        ∧ quantizeCalls (gguf_convert fs be h ctx).events = []) := by
  intro fs be h ctx q ip op hcan hq hin hip hop
  have hany : (QUANTIZATION_TYPES.any fun t => q = t) = true := by
    rw [List.any_eq_true]
    exact ⟨q, hin, decide_eq_true rfl⟩
  refine ⟨?_, ?_, ?_⟩
  · intro hdir
    have hd : (fs.isDirectory ip || extensionOf ip = ".bin"
        || extensionOf ip = ".safetensors") = true := by
      rcases hdir with hd | hd | hd <;> simp [hd]
    by_cases hr : be.systemExit (build_convert_cmd h ctx.params ip op q) = 0
      <;> cases hp : ctx.params.progress_cb
      <;> cases hl : ctx.params.log_cb
      <;> simp [gguf_convert, hcan, hq, hip, hop, hany, hd, hr, hp, hl,
            setProgressEv, logEv, spawnCalls, quantizeCalls]
  · intro hd0 hgg
    by_cases hr : be.quantizeResult ip op (map_quant_ftype q) ctx.params.num_threads = 0
      <;> cases hp : ctx.params.progress_cb
      <;> cases hl : ctx.params.log_cb
      <;> simp [gguf_convert, hcan, hq, hip, hop, hany, hd0, hgg, hr, hp, hl,
            setProgressEv, logEv, spawnCalls, quantizeCalls]
  · intro hd0 hb hs hg
    cases hp : ctx.params.progress_cb
      <;> cases hl : ctx.params.log_cb
      <;> simp [gguf_convert, hcan, hq, hip, hop, hany, hd0, hb, hs, hg, hp, hl,
            setProgressEv, logEv, spawnCalls, quantizeCalls]

/-- Heap for the C1 witness: the input path is the directory `/m/model`. -/
def hDir : StrHeap :=
  { mem := fun a => if a = 3 then "/m/model"
                    else if a = 4 then "/m/out.gguf"
                    else if a = 5 then "q4_0" else "",
    next := 10, freedList := [] }

/-- Filesystem in which `/m/model` is a directory. -/
def fsDir : FileSystem :=
  { emptyFS with pathExists := fun p => p == "/m/model",
                 isDirectory := fun p => p == "/m/model" }

/-- Context for the C1 witness directory branch. -/
def ctxDir : Ctx := { params := pW, progress := 0, cancelled := false, current_stage := "" }

/-- Witness for the amended C1 at concrete inputs: a directory input takes
the out-of-process branch and a `.gguf` input takes the in-process
branch. -/
theorem convert_dispatch_by_input_shape_witness :
    (spawnCalls (gguf_convert fsDir beW hDir ctxDir).events
      = [Effect.spawn (build_convert_cmd hDir ctxDir.params "/m/model" "/m/out.gguf" "q4_0")]
      ∧ quantizeCalls (gguf_convert fsDir beW hDir ctxDir).events = [])
    ∧ (quantizeCalls (gguf_convert fsW beW hW ctxGoodQ).events
      = [Effect.quantize "/m/in.gguf" "/m/out.gguf" (map_quant_ftype "q4_0") 0]
      ∧ spawnCalls (gguf_convert fsW beW hW ctxGoodQ).events = []) := by
  constructor
  · exact (convert_dispatch_by_input_shape fsDir beW hDir ctxDir "q4_0" "/m/model" "/m/out.gguf"
      (by decide) (by decide) (by decide) (by decide) (by decide)).1 (Or.inl (by decide))
  · exact (convert_dispatch_by_input_shape fsW beW hW ctxGoodQ "q4_0" "/m/in.gguf" "/m/out.gguf"
      (by decide) (by decide) (by decide) (by decide) (by decide)).2.1 (by decide) (by decide)

/-- Heap for the C2 counterexample: quantization string `q8_1`. -/
def hQ81 : StrHeap :=
  { mem := fun a => if a = 3 then "/m/in.gguf"
                    else if a = 4 then "/m/out.gguf"
                    else if a = 5 then "q8_1" else "",
    next := 10, freedList := [] }

/-- Context for the C2 counterexample. -/
def ctxQ81 : Ctx := { params := pW, progress := 0, cancelled := false, current_stage := "" }

/-- Counterexample for C2: `q8_1` is one of the 17 enumerated identifiers,
yet the string-to-ftype chain has no branch for it, so an in-process
convert with `q8_1` quantizes with the default 16-bit-float type --
exactly what a string outside the enumerated set gets -- refuting both
the exhaustiveness of the table over the enumerated set and the claim
that only out-of-set strings fall back to the default. -/
theorem q8_1_falls_back_to_default_ftype :
    ("q8_1" ∈ QUANTIZATION_TYPES)
    ∧ quant_ftype_table.find? (fun e => e.1 = "q8_1") = none
    ∧ quantizeCalls (gguf_convert emptyFS beW hQ81 ctxQ81).events
        = [Effect.quantize "/m/in.gguf" "/m/out.gguf" llama_ftype.MOSTLY_F16 0]
    ∧ map_quant_ftype "q8_1" = map_quant_ftype "not_a_quantization" := by
  decide

/-- Claim C2 (amended): the string-to-ftype table is exhaustive over the
enumerated set MINUS `q8_1`: each of the other 16 identifiers has a
chain branch, and convert on a `.gguf` input quantizes with the mapped
type; `q8_1` -- although enumerated -- and every string outside the
enumerated set fall back to the default `LLAMA_FTYPE_MOSTLY_F16`. -/
theorem quant_table_drives_in_process_convert :
    (∀ q ∈ QUANTIZATION_TYPES, q ≠ "q8_1" →
      (quant_ftype_table.find? (fun e => e.1 = q)).isSome = true)
    ∧ map_quant_ftype "q8_1" = llama_ftype.MOSTLY_F16
    ∧ (∀ s : String, s ∉ QUANTIZATION_TYPES → map_quant_ftype s = llama_ftype.MOSTLY_F16)
    ∧ (∀ (fs : FileSystem) (be : Backend) (h : StrHeap) (ctx : Ctx) (q ip op : String),
      ctx.cancelled = false →
      derefStr h ctx.params.quantization = some q →
      q ∈ QUANTIZATION_TYPES →
      derefStr h ctx.params.input_path = some ip →
      derefStr h ctx.params.output_path = some op →
      fs.isDirectory ip = false → extensionOf ip = ".gguf" →
      quantizeCalls (gguf_convert fs be h ctx).events
        = [Effect.quantize ip op (map_quant_ftype q) ctx.params.num_threads]) := by
  refine ⟨by decide, by decide, ?_, ?_⟩
  · intro s hs
    unfold map_quant_ftype
    cases hf : quant_ftype_table.find? (fun e => e.1 = s) with
    | none => rfl
    | some e =>
      exfalso
      have hmem := List.mem_of_find?_eq_some hf
      have hpred := List.find?_some hf
      simp at hpred
      apply hs
      rw [← hpred]
      fin_cases hmem <;> decide
  · intro fs be h ctx q ip op hcan hq hin hip hop hd0 hgg
    have hany : (QUANTIZATION_TYPES.any fun t => q = t) = true := by
      rw [List.any_eq_true]
      exact ⟨q, hin, decide_eq_true rfl⟩
    by_cases hr : be.quantizeResult ip op (map_quant_ftype q) ctx.params.num_threads = 0
      <;> cases hp : ctx.params.progress_cb
      <;> cases hl : ctx.params.log_cb
      <;> simp [gguf_convert, hcan, hq, hip, hop, hany, hd0, hgg, hr, hp, hl,
            setProgressEv, logEv, quantizeCalls]

/-- Witness for the amended C2 at concrete inputs: `q4_k_m` maps to its
table entry and drives the quantize call; an out-of-set string maps to
the default. -/
theorem quant_table_drives_in_process_convert_witness :
    (quant_ftype_table.find? (fun e => e.1 = "q4_k_m")).isSome = true
    ∧ map_quant_ftype "totally_bogus" = llama_ftype.MOSTLY_F16
    ∧ quantizeCalls (gguf_convert fsW beW hW ctxGoodQ).events
        = [Effect.quantize "/m/in.gguf" "/m/out.gguf" (map_quant_ftype "q4_0") 0] := by
  refine ⟨?_, ?_, ?_⟩
  · exact quant_table_drives_in_process_convert.1 "q4_k_m" (by decide) (by decide)
  · exact quant_table_drives_in_process_convert.2.2.1 "totally_bogus" (by decide)
  · exact quant_table_drives_in_process_convert.2.2.2 fsW beW hW ctxGoodQ "q4_0"
      "/m/in.gguf" "/m/out.gguf" (by decide) (by decide) (by decide) (by decide) (by decide)
      (by decide) (by decide)

/-- The only exception `extract_model_info` can raise is the
`std::invalid_argument` from `std::stoul` (its `what()` is "stoul"). -/
theorem extract_model_info_throws_only_stoul :
    ∀ (fs : FileSystem) (path : String) (info0 : ModelInfo) (w : String),
      extract_model_info fs path info0 = ExtractResult.thrown w → w = "stoul" := by
  intro fs path info0 w hE
  simp only [extract_model_info] at hE
  repeat' split at hE
  all_goals try cases hE
  all_goals rfl

/-- Filesystem for the C4 counterexample: the weights file `/m/w.bin` with
a sidecar `/m/config.json` whose `hidden_size` value is not a number. -/
def fsC4 : FileSystem :=
  { emptyFS with
    pathExists := fun p => p == "/m/w.bin" || p == "/m/config.json",
    fileLines := fun p =>
      if p == "/m/config.json" then ["\"hidden_size\": abc,"] else [] }

/-- Heap for the C4 counterexample. -/
def hC4 : StrHeap :=
  { mem := fun a => if a = 3 then "/m/w.bin" else "", next := 10, freedList := [] }

/-- Context for the C4 counterexample. -/
def ctxC4 : Ctx :=
  { params := { pW with input_path := some 3 }, progress := 0, cancelled := false,
    current_stage := "" }

set_option maxRecDepth 100000 in
/-- Counterexample for C4: with a recognized numeric key (`hidden_size`)
whose value `abc` is unparsable, `gguf_validate_input` does not return
a result code -- the `std::invalid_argument` raised by the unguarded
`std::stoul` escapes the function as an unmanaged exception. -/
theorem validate_lets_stoul_exception_escape :
    (gguf_validate_input fsC4 hC4 ctxC4 true).result = VResult.thrown "stoul"
    ∧ (∀ code : Int, (gguf_validate_input fsC4 hC4 ctxC4 true).result ≠ VResult.retCode code) := by
  constructor
  · decide
  · intro code hcode
    have : VResult.thrown "stoul" = VResult.retCode code := by
      rw [← hcode]
      decide
    cases this

/-- Claim C4 (amended): `gguf_validate_input` either returns one of the
fixed result codes (`GGUF_SUCCESS` or `GGUF_ERROR_INVALID_FORMAT`), or
-- exactly when a recognized numeric key of the sidecar config holds an
unparsable value -- the `std::invalid_argument` thrown by the unguarded
`std::stoul` in `extract_model_info` escapes to the caller as an
unmanaged exception; no other fault escapes. -/
theorem validate_returns_code_or_stoul_escape :
    ∀ (fs : FileSystem) (h : StrHeap) (ctx : Ctx) (wantInfo : Bool),
      (gguf_validate_input fs h ctx wantInfo).result = VResult.retCode GGUF_SUCCESS
      ∨ (gguf_validate_input fs h ctx wantInfo).result
          = VResult.retCode GGUF_ERROR_INVALID_FORMAT
      ∨ (gguf_validate_input fs h ctx wantInfo).result = VResult.thrown "stoul" := by
  intro fs h ctx wantInfo
  simp only [gguf_validate_input]
  split
  · right; left; rfl
  · split
    · left; rfl
    · cases hE : extract_model_info fs ((derefStr h ctx.params.input_path).getD "") zeroInfo with
      | thrown w =>
        right; right
        simp only []
        rw [extract_model_info_throws_only_stoul fs
          ((derefStr h ctx.params.input_path).getD "") zeroInfo w hE]
      | ret found i1 => left; rfl

/-! ## Heap lemmas supporting the deep-copy analysis (C5) -/

/-- Copying advances the allocation frontier by at most one, never
backwards. -/
theorem copyField_next_ge (h0 h : StrHeap) (f : Option Nat) :
    h.next ≤ (copyField h0 h f).2.next := by
  cases f <;> simp [copyField, allocStr]

/-- Copying writes only at the allocation frontier: every address below it
is untouched. -/
theorem copyField_mem_lt (h0 h : StrHeap) (f : Option Nat) (a : Nat) (ha : a < h.next) :
    (copyField h0 h f).2.mem a = h.mem a := by
  cases f with
  | none => rfl
  | some b =>
    simp only [copyField, allocStr]
    rw [if_neg (Nat.ne_of_lt ha)]

/-- A null field copies to a null field and leaves the heap unchanged. -/
theorem copyField_none (h0 h : StrHeap) (f : Option Nat) (hf : f = none) :
    copyField h0 h f = (none, h) := by
  rw [hf]; rfl

/-- A non-null field is duplicated at the allocation frontier with the
caller's contents. -/
theorem copyField_some (h0 h : StrHeap) (f : Option Nat) (b : Nat) (hf : f = some b) :
    (copyField h0 h f).1 = some h.next
    ∧ (copyField h0 h f).2.mem h.next = h0.mem b
    ∧ (copyField h0 h f).2.next = h.next + 1 := by
  rw [hf]
  refine ⟨rfl, ?_, rfl⟩
  simp [copyField, allocStr]

/-- The copy is non-null exactly when the original is. -/
theorem copyField_fst_isSome (h0 h : StrHeap) (f : Option Nat) :
    (copyField h0 h f).1.isSome = f.isSome := by
  cases f <;> rfl

/-- `gguf_convert` reads the heap only through the context's input,
output, quantization and architecture-hint strings: two heaps agreeing
on those four dereferences produce identical convert behaviour. -/
theorem gguf_convert_heap_congr (fs : FileSystem) (be : Backend)
    (h1 h2 : StrHeap) (ctx : Ctx)
    (hq : derefStr h1 ctx.params.quantization = derefStr h2 ctx.params.quantization)
    (hi : derefStr h1 ctx.params.input_path = derefStr h2 ctx.params.input_path)
    (ho : derefStr h1 ctx.params.output_path = derefStr h2 ctx.params.output_path)
    (hm : derefStr h1 ctx.params.model_type = derefStr h2 ctx.params.model_type) :
    gguf_convert fs be h1 ctx = gguf_convert fs be h2 ctx := by
  simp only [gguf_convert, build_convert_cmd, hq, hi, ho, hm]

/-- `gguf_validate_input` reads the heap only through the context's input
string. -/
theorem gguf_validate_heap_congr (fs : FileSystem) (h1 h2 : StrHeap) (ctx : Ctx)
    (wantInfo : Bool)
    (hi : derefStr h1 ctx.params.input_path = derefStr h2 ctx.params.input_path) :
    gguf_validate_input fs h1 ctx wantInfo = gguf_validate_input fs h2 ctx wantInfo := by
  simp only [gguf_validate_input, hi]

/-- Claim C5 (amended): `gguf_create_context` returns a non-null handle
exactly when the input and output pointers are non-null and the input
path exists on the filesystem; non-emptiness is not checked separately
(an empty output path is accepted, and an empty input path is rejected
only because an empty path never exists).  On success the five string
fields -- input path, output path, model type, quantization, vocabulary
type -- are deep-copied into fresh context-owned storage: each copy is
non-null exactly when the caller's field was and holds equal contents.
The metadata key=value override list pointer is copied shallowly and
stays aliased to the caller's array.  Convert and validate read only
the five copied strings, so mutating or freeing caller buffers (any
change below the old allocation frontier) leaves their behaviour
unchanged. -/
theorem create_context_deep_copies_and_isolates :
    ∀ (fs : FileSystem) (h : StrHeap) (p : ParamsP),
      ((gguf_create_context fs h p).handle.isSome = true
        ↔ p.input_path.isSome = true ∧ p.output_path.isSome = true
          ∧ fs.pathExists ((derefStr h p.input_path).getD "") = true)
      ∧ ∀ (ctx : Ctx) (h2 : StrHeap),
          (gguf_create_context fs h p).handle = some (ctx, h2) →
          (ctx.params.input_path.isSome = p.input_path.isSome
            ∧ ctx.params.output_path.isSome = p.output_path.isSome
            ∧ ctx.params.model_type.isSome = p.model_type.isSome
            ∧ ctx.params.quantization.isSome = p.quantization.isSome
            ∧ ctx.params.vocab_type.isSome = p.vocab_type.isSome)
          ∧ (derefStr h2 ctx.params.input_path = derefStr h p.input_path
            ∧ derefStr h2 ctx.params.output_path = derefStr h p.output_path
            ∧ derefStr h2 ctx.params.model_type = derefStr h p.model_type
            ∧ derefStr h2 ctx.params.quantization = derefStr h p.quantization
            ∧ derefStr h2 ctx.params.vocab_type = derefStr h p.vocab_type)
          ∧ ctx.params.metadata_overrides = p.metadata_overrides
          ∧ ∀ h3 : StrHeap,
              (∀ a, h.next ≤ a → h3.mem a = h2.mem a) →
              (∀ (fs2 : FileSystem) (be : Backend),
                gguf_convert fs2 be h3 ctx = gguf_convert fs2 be h2 ctx)
              ∧ (∀ (fs2 : FileSystem) (w : Bool),
                gguf_validate_input fs2 h3 ctx w = gguf_validate_input fs2 h2 ctx w) := by
  intro fs h p
  constructor
  · simp only [gguf_create_context]
    by_cases hin : p.input_path = none
    · simp [hin]
    · by_cases hout : p.output_path = none
      · simp [hin, hout]
      · by_cases hex : fs.pathExists ((derefStr h p.input_path).getD "") = true
        · simp [hin, hout, hex, Option.isSome_iff_ne_none]
        · simp [hin, hout, Bool.not_eq_true] at hex ⊢
          simp [hex]
  · intro ctx h2 hctx
    simp only [gguf_create_context] at hctx
    by_cases hin : p.input_path = none
    · simp [hin] at hctx
    · by_cases hout : p.output_path = none
      · simp [hin, hout] at hctx
      · by_cases hex : fs.pathExists ((derefStr h p.input_path).getD "") = false
        · simp [hin, hout, hex] at hctx
        · simp only [hin, hout, hex, decide_False, Bool.or_self, Bool.false_eq_true,
            if_false, Option.some.injEq, Prod.mk.injEq] at hctx
          obtain ⟨ia, hia⟩ := Option.ne_none_iff_exists'.mp hin
          obtain ⟨oa, hoa⟩ := Option.ne_none_iff_exists'.mp hout
          set c1 := copyField h h p.input_path with hc1
          set c2 := copyField h c1.2 p.output_path with hc2
          set c3 := copyField h c2.2 p.model_type with hc3
          set c4 := copyField h c3.2 p.quantization with hc4
          set c5 := copyField h c4.2 p.vocab_type with hc5
          obtain ⟨hA, hB⟩ := hctx
          have g1 := copyField_next_ge h h p.input_path
          rw [← hc1] at g1
          have g2 := copyField_next_ge h c1.2 p.output_path
          rw [← hc2] at g2
          have g3 := copyField_next_ge h c2.2 p.model_type
          rw [← hc3] at g3
          have g4 := copyField_next_ge h c3.2 p.quantization
          rw [← hc4] at g4
          have g5 := copyField_next_ge h c4.2 p.vocab_type
          rw [← hc5] at g5
          have p5 : ∀ a, a < c4.2.next → c5.2.mem a = c4.2.mem a := fun a ha => by
            rw [hc5]; exact copyField_mem_lt h c4.2 p.vocab_type a ha
          have p4 : ∀ a, a < c3.2.next → c4.2.mem a = c3.2.mem a := fun a ha => by
            rw [hc4]; exact copyField_mem_lt h c3.2 p.quantization a ha
          have p3 : ∀ a, a < c2.2.next → c3.2.mem a = c2.2.mem a := fun a ha => by
            rw [hc3]; exact copyField_mem_lt h c2.2 p.model_type a ha
          have p2 : ∀ a, a < c1.2.next → c2.2.mem a = c1.2.mem a := fun a ha => by
            rw [hc2]; exact copyField_mem_lt h c1.2 p.output_path a ha
          have pres4 : ∀ a, a < c4.2.next → c5.2.mem a = c4.2.mem a := p5
          have pres3 : ∀ a, a < c3.2.next → c5.2.mem a = c3.2.mem a := fun a ha => by
            rw [p5 a (lt_of_lt_of_le ha g4), p4 a ha]
          have pres2 : ∀ a, a < c2.2.next → c5.2.mem a = c2.2.mem a := fun a ha => by
            rw [pres3 a (lt_of_lt_of_le ha g3), p3 a ha]
          have pres1 : ∀ a, a < c1.2.next → c5.2.mem a = c1.2.mem a := fun a ha => by
            rw [pres2 a (lt_of_lt_of_le ha g2), p2 a ha]
          obtain ⟨e1a, e1b, e1c⟩ := copyField_some h h p.input_path ia hia
          rw [← hc1] at e1a e1b e1c
          obtain ⟨e2a, e2b, e2c⟩ := copyField_some h c1.2 p.output_path oa hoa
          rw [← hc2] at e2a e2b e2c
          have din : derefStr c5.2 c1.1 = derefStr h p.input_path := by
            rw [e1a, hia]
            simp only [derefStr]
            rw [pres1 h.next (by omega), e1b]
          have dout : derefStr c5.2 c2.1 = derefStr h p.output_path := by
            rw [e2a, hoa]
            simp only [derefStr]
            rw [pres2 c1.2.next (by omega), e2b]
          have dmt : derefStr c5.2 c3.1 = derefStr h p.model_type := by
            cases hmt : p.model_type with
            | none =>
              have h3n := copyField_none h c2.2 p.model_type hmt
              rw [← hc3] at h3n
              rw [h3n]
              rfl
            | some ma =>
              obtain ⟨e3a, e3b, e3c⟩ := copyField_some h c2.2 p.model_type ma hmt
              rw [← hc3] at e3a e3b e3c
              rw [e3a]
              simp only [derefStr]
              rw [pres3 c2.2.next (by omega), e3b]
          have dq : derefStr c5.2 c4.1 = derefStr h p.quantization := by
            cases hqz : p.quantization with
            | none =>
              have h4n := copyField_none h c3.2 p.quantization hqz
              rw [← hc4] at h4n
              rw [h4n]
              rfl
            | some qa =>
              obtain ⟨e4a, e4b, e4c⟩ := copyField_some h c3.2 p.quantization qa hqz
              rw [← hc4] at e4a e4b e4c
              rw [e4a]
              simp only [derefStr]
              rw [pres4 c3.2.next (by omega), e4b]
          have dvt : derefStr c5.2 c5.1 = derefStr h p.vocab_type := by
            cases hvt : p.vocab_type with
            | none =>
              have h5n := copyField_none h c4.2 p.vocab_type hvt
              rw [← hc5] at h5n
              rw [h5n]
              rfl
            | some va =>
              obtain ⟨e5a, e5b, e5c⟩ := copyField_some h c4.2 p.vocab_type va hvt
              rw [← hc5] at e5a e5b e5c
              rw [e5a]
              simp only [derefStr]
              rw [e5b]
          refine ⟨⟨?_, ?_, ?_, ?_, ?_⟩, ⟨din, dout, dmt, dq, dvt⟩, rfl, ?_⟩
          · show c1.1.isSome = p.input_path.isSome
            rw [e1a, hia]
            rfl
          · show c2.1.isSome = p.output_path.isSome
            rw [e2a, hoa]
            rfl
          · show c3.1.isSome = p.model_type.isSome
            rw [hc3, copyField_fst_isSome]
          · show c4.1.isSome = p.quantization.isSome
            rw [hc4, copyField_fst_isSome]
          · show c5.1.isSome = p.vocab_type.isSome
            rw [hc5, copyField_fst_isSome]
          · intro h3 hagree
            have dd : ∀ f : Option Nat,
                (∀ b, f = some b → h.next ≤ b) → derefStr h3 f = derefStr c5.2 f := by
              intro f hf
              cases hfc : f with
              | none => rfl
              | some b =>
                simp only [derefStr]
                rw [hagree b (hf b hfc)]
            have ain : ∀ b, c1.1 = some b → h.next ≤ b := by
              intro b hb
              rw [e1a, Option.some.injEq] at hb
              omega
            have aout : ∀ b, c2.1 = some b → h.next ≤ b := by
              intro b hb
              rw [e2a, Option.some.injEq] at hb
              omega
            have amt : ∀ b, c3.1 = some b → h.next ≤ b := by
              intro b hb
              cases hmt : p.model_type with
              | none =>
                have h3n := copyField_none h c2.2 p.model_type hmt
                rw [← hc3] at h3n
                rw [h3n] at hb
                cases hb
              | some ma =>
                obtain ⟨e3a, e3b, e3c⟩ := copyField_some h c2.2 p.model_type ma hmt
                rw [← hc3] at e3a
                rw [e3a, Option.some.injEq] at hb
                omega
            have aq : ∀ b, c4.1 = some b → h.next ≤ b := by
              intro b hb
              cases hqz : p.quantization with
              | none =>
                have h4n := copyField_none h c3.2 p.quantization hqz
                rw [← hc4] at h4n
                rw [h4n] at hb
                cases hb
              | some qa =>
                obtain ⟨e4a, e4b, e4c⟩ := copyField_some h c3.2 p.quantization qa hqz
                rw [← hc4] at e4a
                rw [e4a, Option.some.injEq] at hb
                omega
            constructor
            · intro fs2 be
              exact gguf_convert_heap_congr fs2 be h3 c5.2 _
                (dd _ aq) (dd _ ain) (dd _ aout) (dd _ amt)
            · intro fs2 w
              exact gguf_validate_heap_congr fs2 h3 c5.2 _ w (dd _ ain)

/-- Heap for the C5 counterexample: the output string at address 4 is
empty. -/
def hEmptyOut : StrHeap :=
  { mem := fun a => if a = 3 then "/m/in.gguf" else "", next := 10, freedList := [] }

/-- Counterexample for C5: (1) `gguf_create_context` succeeds although the
caller's output path string is empty, refuting the claimed non-empty
requirement; (2) the created context's metadata-override pointer is the
caller's address 7 -- below the allocation frontier 10 -- not a fresh
context-owned copy, while a genuinely copied field (the input path)
received the fresh address 10. -/
theorem create_accepts_empty_output_and_aliases_metadata :
    ((gguf_create_context fsW hEmptyOut pW).handle.isSome = true
      ∧ derefStr hEmptyOut pW.output_path = some "")
    ∧ (((gguf_create_context fsW hW pW).handle.getD dummyHandle).1.params.metadata_overrides
          = some 7
      ∧ pW.metadata_overrides = some 7
      ∧ 7 < hW.next
      ∧ ((gguf_create_context fsW hW pW).handle.getD dummyHandle).1.params.input_path
          = some 10
      ∧ hW.next ≤ 10) := by
  decide

/-- The context produced by the C5 witness creation. -/
def ctxW5 : Ctx := ((gguf_create_context fsW hW pW).handle.getD dummyHandle).1

/-- The heap after the C5 witness creation. -/
def hW5 : StrHeap := ((gguf_create_context fsW hW pW).handle.getD dummyHandle).2

/-- The caller mutating its input-path buffer (address 3) after creation. -/
def hMut : StrHeap :=
  { hW5 with mem := fun a => if a = 3 then "CLOBBERED" else hW5.mem a }

/-- Witness for the amended C5 at concrete inputs: creation succeeds, the
quantization string was deep-copied, the metadata pointer is shared,
and clobbering the caller's input buffer does not change convert. -/
theorem create_context_deep_copies_and_isolates_witness :
    (gguf_create_context fsW hW pW).handle.isSome = true
    ∧ derefStr hW5 ctxW5.params.quantization = derefStr hW pW.quantization
    ∧ ctxW5.params.metadata_overrides = pW.metadata_overrides
    ∧ gguf_convert fsW beW hMut ctxW5 = gguf_convert fsW beW hW5 ctxW5 := by
  refine ⟨?_, ?_, ?_, ?_⟩
  · exact (create_context_deep_copies_and_isolates fsW hW pW).1.mpr
      ⟨by decide, by decide, by decide⟩
  · exact ((create_context_deep_copies_and_isolates fsW hW pW).2 ctxW5 hW5 rfl).2.1.2.2.2.1
  · exact ((create_context_deep_copies_and_isolates fsW hW pW).2 ctxW5 hW5 rfl).2.2.1
  · refine ((((create_context_deep_copies_and_isolates fsW hW pW).2 ctxW5 hW5 rfl).2.2.2
      hMut ?_).1 fsW beW)
    intro a ha
    show (if a = 3 then "CLOBBERED" else hW5.mem a) = hW5.mem a
    have hne : ¬a = 3 := by
      have : hW.next = 10 := rfl
      omega
    rw [if_neg hne]
